import Mathlib

/-
  Verification development for the CairoService repository
  (src/database.py, src/pdf_merger.py, src/app.py).

  The Python source is shallowly embedded: the SQLite tables become lists of
  records kept in rowid (insertion) order, SQL queries become list operations
  (`ORDER BY` is modelled by a stable insertion sort, matching both SQLite's
  index-scan tie order and Python's stable `list.sort`), and the blob store /
  local file system becomes an association list from paths to blobs.  External
  collaborators (PyPDF2, cairosvg, werkzeug, the OS write call) are modelled by
  explicit parameters or by small abstractions documented at each definition.
-/

namespace Cairo

deriving instance DecidableEq for Except

/-- A stored blob of bytes.  `content` stands for the raw bytes; `pdfPages`
is the result of parsing the blob with PyPDF2's `PdfReader`: `none` means the
reader raises (not a well-formed PDF), `some k` means it parses with `k`
pages.  This models the external PDF library as a pure attribute of the
stored bytes. -/
structure Blob where
  content : String
  pdfPages : Option Nat
deriving Repr, DecidableEq

/-- `os.path.getsize` of a stored blob. -/
def Blob.size (b : Blob) : Nat := b.content.length

/-- The blob obtained by writing a Python string to a file (an SVG text file:
not parseable as a PDF). -/
def strBlob (s : String) : Blob := ⟨s, none⟩

/-- The file system / blob store: an association list from paths to blobs,
newest binding first. -/
abbrev FS := List (String × Blob)

/-- Writing bytes to a path (creates or overwrites the file at that path). -/
def fsWrite (fs : FS) (p : String) (b : Blob) : FS := (p, b) :: fs

/-- Reading the blob currently stored at a path. -/
def fsLookup (fs : FS) (p : String) : Option Blob :=
  (fs.find? (fun e => e.1 == p)).map (·.2)

/-- `os.path.exists`. -/
def fsExists (fs : FS) (p : String) : Bool := (fsLookup fs p).isSome

/-- One row of the `files` table created by `init_database` in
src/database.py (timestamps are not modelled; no claim mentions them —
creation order is the rowid order `id`). -/
structure FileRecord where
  id : Nat
  order_number : Int
  line_number : Int
  sequence_number : Int
  original_filename : String
  svg_path : String
  pdf_path : Option String
  status : String
  file_size : Nat
deriving Repr, DecidableEq

/-- One row of the `merged_files` table (src/database.py,
`init_merged_files_table`); `line_numbers` is stored as JSON in SQLite and
modelled directly as the list it round-trips to. -/
structure MergedFileRecord where
  id : Nat
  order_number : Int
  sequence_number : Int
  merged_pdf_path : String
  file_size : Nat
  line_numbers : List Int
  file_count : Nat
  status : String
deriving Repr, DecidableEq

/-- The SQLite database: both tables in rowid order, plus the AUTOINCREMENT
counters. -/
structure DB where
  files : List FileRecord
  merged : List MergedFileRecord
  nextFileId : Nat
  nextMergedId : Nat
deriving Repr, DecidableEq

def emptyDB : DB := ⟨[], [], 1, 1⟩

/-- SQL `MAX` aggregate over a column: `NULL` (`none`) on the empty set. -/
def sqlMax : List Int → Option Int
  | [] => none
  | x :: xs =>
    match sqlMax xs with
    | none => some x
    | some m => some (max x m)

/-- The rows of `files` matching `order_number = o AND line_number = l`. -/
def filesForKey (db : DB) (o l : Int) : List FileRecord :=
  db.files.filter (fun r => r.order_number == o && r.line_number == l)

/-- src/database.py `get_next_sequence_number`: `SELECT MAX(sequence_number)
FROM files WHERE order_number = ? AND line_number = ?`, `NULL` read as 0,
plus one. -/
def get_next_sequence_number (db : DB) (o l : Int) : Int :=
  (sqlMax ((filesForKey db o l).map (·.sequence_number))).getD 0 + 1

/-- src/database.py `insert_file_record`.  The schema's
`UNIQUE(order_number, line_number, sequence_number)` constraint makes the
INSERT raise `IntegrityError` on a duplicate key, modelled as `none`. -/
def insert_file_record (db : DB) (o l : Int) (name svg_path : String)
    (size : Nat) (seq : Int) : Option (Nat × DB) :=
  if db.files.any (fun r =>
      r.order_number == o && r.line_number == l && r.sequence_number == seq) then
    none
  else
    let r : FileRecord :=
      ⟨db.nextFileId, o, l, seq, name, svg_path, none, "uploaded", size⟩
    some (db.nextFileId,
      { db with files := db.files ++ [r], nextFileId := db.nextFileId + 1 })

/-- src/database.py `update_file_conversion`: sets `pdf_path` and `status`
on the row with the given rowid. -/
def update_file_conversion (db : DB) (fid : Nat) (pdf_path : Option String)
    (status : String) : DB :=
  { db with files := db.files.map (fun r =>
      if r.id == fid then { r with pdf_path := pdf_path, status := status } else r) }

/-- src/database.py `get_file_by_order_line`, embedded exactly as written:
the subquery is `(SELECT MAX(sequence_number) FROM files)` — an aggregate
over the WHOLE table, not filtered to the key.  `sequence_number = NULL`
matches no row when the table is empty. -/
def get_file_by_order_line (db : DB) (o l : Int) : Option FileRecord :=
  match sqlMax (db.files.map (·.sequence_number)) with
  | none => none
  | some m =>
    (db.files.filter (fun r =>
      r.order_number == o && r.line_number == l && r.sequence_number == m)).head?

/-- src/database.py `get_file_by_order_line_seq`. -/
def get_file_by_order_line_seq (db : DB) (o l s : Int) : Option FileRecord :=
  (db.files.filter (fun r =>
    r.order_number == o && r.line_number == l && r.sequence_number == s)).head?

/-- `ORDER BY sequence_number ASC` as a relation on rows. -/
def seqLe (a b : FileRecord) : Prop := a.sequence_number ≤ b.sequence_number

instance : DecidableRel seqLe := fun a b =>
  inferInstanceAs (Decidable (a.sequence_number ≤ b.sequence_number))

instance : IsTotal FileRecord seqLe := ⟨fun _ _ => Int.le_total _ _⟩

instance : IsTrans FileRecord seqLe := ⟨fun _ _ _ => Int.le_trans⟩

/-- `ORDER BY line_number` as a relation on rows. -/
def recLineLe (a b : FileRecord) : Prop := a.line_number ≤ b.line_number

instance : DecidableRel recLineLe := fun a b =>
  inferInstanceAs (Decidable (a.line_number ≤ b.line_number))

instance : IsTotal FileRecord recLineLe := ⟨fun _ _ => Int.le_total _ _⟩

instance : IsTrans FileRecord recLineLe := ⟨fun _ _ _ => Int.le_trans⟩

/-- src/database.py `get_all_files_by_order_line`: the key's rows in
ascending sequence order. -/
def get_all_files_by_order_line (db : DB) (o l : Int) : List FileRecord :=
  List.insertionSort seqLe (filesForKey db o l)

/-- src/database.py `get_files_by_order`: ALL rows of the order (every
version of every line), ordered by `line_number`. -/
def get_files_by_order (db : DB) (o : Int) : List FileRecord :=
  List.insertionSort recLineLe (db.files.filter (fun r => r.order_number == o))

/-- src/database.py `get_next_merged_sequence_number`. -/
def get_next_merged_sequence_number (db : DB) (o : Int) : Int :=
  (sqlMax ((db.merged.filter (fun r => r.order_number == o)).map
    (·.sequence_number))).getD 0 + 1

/-- src/database.py `insert_merged_file_record`; `none` sequence means
"allocate the next one"; a duplicate `(order_number, sequence_number)` hits
the table's UNIQUE constraint (`none` result). -/
def insert_merged_file_record (db : DB) (o : Int) (path : String) (size : Nat)
    (lines : List Int) (fc : Nat) (seq? : Option Int) : Option (Nat × DB) :=
  let seq := seq?.getD (get_next_merged_sequence_number db o)
  if db.merged.any (fun r => r.order_number == o && r.sequence_number == seq) then
    none
  else
    let r : MergedFileRecord :=
      ⟨db.nextMergedId, o, seq, path, size, lines, fc, "completed"⟩
    some (db.nextMergedId,
      { db with merged := db.merged ++ [r], nextMergedId := db.nextMergedId + 1 })

/-! ## src/pdf_merger.py -/

/-- The per-line dictionary built inside `get_order_summary` (one per row of
`get_files_by_order`, i.e. one per stored version). -/
structure LineInfo where
  line_number : Int
  filename : String
  status : String
  pdf_path : Option String
deriving Repr, DecidableEq

/-- The test `file_record['pdf_path'] and os.path.exists(file_record['pdf_path'])`:
a NULL or empty-string path is falsy, else the file must exist. -/
def lineAvailable (fs : FS) (p : Option String) : Bool :=
  match p with
  | none => false
  | some s => s != "" && fsExists fs s

/-- `available_pdfs` / `missing_pdfs` sort key. -/
def lineInfoLe (a b : LineInfo) : Prop := a.line_number ≤ b.line_number

instance : DecidableRel lineInfoLe := fun a b =>
  inferInstanceAs (Decidable (a.line_number ≤ b.line_number))

instance : IsTotal LineInfo lineInfoLe := ⟨fun _ _ => Int.le_total _ _⟩

instance : IsTrans LineInfo lineInfoLe := ⟨fun _ _ _ => Int.le_trans⟩

/-- The dictionary returned by `get_order_summary` (the zero-record branch
returns the dict without `available_count` / `missing_count`; those counts
are the list lengths wherever the code reads them, so they are not separate
fields here). -/
structure OrderSummary where
  order_number : Int
  total_files : Nat
  available_pdfs : List LineInfo
  missing_pdfs : List LineInfo
  all_line_numbers : List Int
deriving Repr, DecidableEq

def lineInfoOf (r : FileRecord) : LineInfo :=
  ⟨r.line_number, r.original_filename, r.status, r.pdf_path⟩

/-- src/pdf_merger.py `get_order_summary`: iterates over ALL rows of the
order (every version), splits them into available/missing by
`pdf_path`-truthiness and file existence, and sorts each list by
`line_number` (Python's stable sort, modelled by insertion sort). -/
def get_order_summary (fs : FS) (db : DB) (o : Int) : OrderSummary :=
  let files := get_files_by_order db o
  if files.isEmpty then ⟨o, 0, [], [], []⟩
  else
    let infos := files.map lineInfoOf
    let avail := List.insertionSort lineInfoLe
      (infos.filter (fun i => lineAvailable fs i.pdf_path))
    let miss := List.insertionSort lineInfoLe
      (infos.filter (fun i => !lineAvailable fs i.pdf_path))
    ⟨o, files.length, avail, miss,
      List.insertionSort (· ≤ ·) (files.map (·.line_number))⟩

/-- One path passes `validate_pdf_files` iff it exists, `PdfReader` parses
it, and it has at least one page. -/
def pathValidPdf (fs : FS) (p : String) : Bool :=
  match fsLookup fs p with
  | none => false
  | some b =>
    match b.pdfPages with
    | none => false
    | some k => decide (0 < k)

/-- src/pdf_merger.py `validate_pdf_files`: partitions the paths, preserving
order, into (valid, invalid). -/
def validate_pdf_files (fs : FS) : List String → List String × List String
  | [] => ([], [])
  | p :: ps =>
    let vi := validate_pdf_files fs ps
    if pathValidPdf fs p then (p :: vi.1, vi.2) else (vi.1, p :: vi.2)

/-- The `line_numbers`-given loop of `merge_pdfs_by_order` (lines 124-133):
for each requested line in caller order, the first matching entry of
`available_pdfs`; stops with the first line that has no entry. -/
def planSpecificLines (avail : List LineInfo) : List Int → Except Int (List LineInfo)
  | [] => .ok []
  | n :: ns =>
    match avail.find? (fun p => p.line_number == n) with
    | none => .error n
    | some p =>
      match planSpecificLines avail ns with
      | .ok ps => .ok (p :: ps)
      | .error m => .error m

def unresolvedLineMsg (n : Int) : String :=
  "Line number " ++ toString n ++ " not found or PDF not available"

/-- The plan-selection step of `merge_pdfs_by_order` (lines 121-136):
`if line_numbers:` (Python truthiness — `None` and `[]` both select
"merge all available"). -/
def merge_plan (s : OrderSummary) (lineNumbers : List Int) :
    Except String (List LineInfo) :=
  if lineNumbers.isEmpty then .ok s.available_pdfs
  else
    match planSpecificLines s.available_pdfs lineNumbers with
    | .error n => .error (unresolvedLineMsg n)
    | .ok ps => .ok ps

/-- Outcome of the external `merger.write(output_path)` call: PyPDF2 streams
into the (truncated) target file, so a failing write raises after having
written some prefix of the output — `failAfter b` leaves blob `b` at the
path; the exception is caught by the surrounding `except`. -/
inductive WriteResult where
  | success : WriteResult
  | failAfter : Blob → WriteResult
deriving Repr, DecidableEq

/-- Concatenation produced by `PdfMerger.append`/`write`. -/
def concatBlobs (bs : List Blob) : Blob :=
  ⟨String.join (bs.map (·.content)), some (bs.map (fun b => b.pdfPages.getD 0)).sum⟩

/-- `os.path.join(os.getenv('CONVERTED_FOLDER', ...), f"merged_{order_number}.pdf")`
(the converted folder is modelled as the constant prefix `converted/`). -/
def defaultOutputPath (o : Int) : String :=
  "converted/merged_" ++ toString o ++ ".pdf"

def writeFailureMsg : String := "Error merging PDFs: write failure"

/-- src/pdf_merger.py `merge_pdfs_by_order`: summary, emptiness checks, plan
selection, validation, then the merge + write.  Returns the resulting file
system and either the output path or the error string the function builds. -/
def merge_pdfs_by_order (fs : FS) (db : DB) (o : Int) (lineNumbers : List Int)
    (outputPath : Option String) (w : WriteResult) : FS × Except String String :=
  let s := get_order_summary fs db o
  if s.total_files = 0 then
    (fs, .error ("No files found for order number " ++ toString o))
  else if s.available_pdfs.length = 0 then
    (fs, .error "No PDF files available to merge")
  else
    match merge_plan s lineNumbers with
    | .error e => (fs, .error e)
    | .ok pdfs_to_merge =>
      let pdf_paths := pdfs_to_merge.map (fun p => p.pdf_path.getD "")
      let vi := validate_pdf_files fs pdf_paths
      if !vi.2.isEmpty then
        let invalid_lines := (pdfs_to_merge.filter
          (fun p => vi.2.contains (p.pdf_path.getD ""))).map (·.line_number)
        (fs, .error ("Invalid or corrupted PDFs for line numbers: " ++
          toString invalid_lines))
      else if vi.1.isEmpty then (fs, .error "No valid PDFs found to merge")
      else
        let out := outputPath.getD (defaultOutputPath o)
        let merged := concatBlobs (vi.1.map (fun p => (fsLookup fs p).getD (strBlob "")))
        match w with
        | .success => (fsWrite fs out merged, .ok out)
        | .failAfter b => (fsWrite fs out b, .error writeFailureMsg)

/-- src/pdf_merger.py `merge_specific_pdfs` — a direct alias. -/
def merge_specific_pdfs (fs : FS) (db : DB) (o : Int) (lineNumbers : List Int)
    (outputPath : Option String) (w : WriteResult) : FS × Except String String :=
  merge_pdfs_by_order fs db o lineNumbers outputPath w

/-- src/pdf_merger.py `get_pdf_page_count`: 0 when the file is missing or
unreadable. -/
def get_pdf_page_count (fs : FS) (p : String) : Nat :=
  match fsLookup fs p with
  | none => 0
  | some b => b.pdfPages.getD 0

/-- Python `list.index` (total extension: length when absent; the preview
only applies it to members of the list). -/
def pyIndex (l : List Int) (x : Int) : Nat :=
  match l with
  | [] => 0
  | y :: ys => if y == x then 0 else pyIndex ys x + 1

/-- The preview's sort key `line_numbers.index(x['line_number'])`. -/
def previewIdxLe (ls : List Int) (a b : LineInfo) : Prop :=
  pyIndex ls a.line_number ≤ pyIndex ls b.line_number

instance (ls : List Int) : DecidableRel (previewIdxLe ls) := fun a b =>
  inferInstanceAs (Decidable (pyIndex ls a.line_number ≤ pyIndex ls b.line_number))

structure PreviewDetail where
  line_number : Int
  filename : String
  pages : Nat
deriving Repr, DecidableEq

structure MergePreview where
  order_number : Int
  files_to_merge : Nat
  total_pages : Nat
  merge_details : List PreviewDetail
  missing_pdfs : List LineInfo
deriving Repr, DecidableEq

/-- src/pdf_merger.py `get_merge_preview`.  Note `line_numbers is not []` is
an identity comparison that is always true in CPython, so the branch is taken
exactly when `len(line_numbers) > 0`; the specific-lines branch FILTERS the
available entries by membership and re-sorts them by first index in the
request — it does not fail on unresolved lines and does not duplicate
repeated requests. -/
def get_merge_preview (fs : FS) (db : DB) (o : Int) (lineNumbers : List Int) :
    MergePreview :=
  let s := get_order_summary fs db o
  let pdfs :=
    if 0 < lineNumbers.length then
      List.insertionSort (previewIdxLe lineNumbers)
        (s.available_pdfs.filter (fun p => lineNumbers.contains p.line_number))
    else s.available_pdfs
  let details := pdfs.map (fun p =>
    (⟨p.line_number, p.filename, get_pdf_page_count fs (p.pdf_path.getD "")⟩ : PreviewDetail))
  ⟨o, details.length, (details.map (·.pages)).sum, details, s.missing_pdfs⟩

/-! ## src/app.py -/

/-- Accumulate the value of a decimal digit string; `none` on the first
non-digit character. -/
def digitsVal (acc : Nat) : List Char → Option Nat
  | [] => some acc
  | c :: cs =>
    if 48 ≤ c.toNat && c.toNat ≤ 57 then digitsVal (acc * 10 + (c.toNat - 48)) cs
    else none

/-- Python's `int(...)` applied to a string: an optional sign followed by at
least one decimal digit (structurally recursive so that concrete executions
reduce inside the kernel). -/
def pyToInt? (s : String) : Option Int :=
  match s.data with
  | [] => none
  | '-' :: cs =>
    if cs.isEmpty then none else (digitsVal 0 cs).map (fun n => -(n : Int))
  | cs => (digitsVal 0 cs).map (fun n => (n : Int))

def toLowerStr (s : String) : String := String.mk (s.data.map Char.toLower)

/-- `filename.rsplit('.', 1)[1]` when a dot is present: the characters after
the last dot. -/
def extAfterLastDot (s : String) : String :=
  String.mk ((s.data.reverse.takeWhile (fun c => c != '.')).reverse)

/-- `filename.rsplit('.', 1)[0]`: the characters before the last dot (the
whole name when there is none). -/
def rsplitStem (s : String) : String :=
  if s.data.contains '.' then
    String.mk (((s.data.reverse.dropWhile (fun c => c != '.')).drop 1).reverse)
  else s

/-- src/app.py `allowed_file`: a dot is present and the extension lowercases
to `svg`. -/
def allowed_file (s : String) : Bool :=
  s.data.contains '.' && (toLowerStr (extAfterLastDot s) == "svg")

/-- werkzeug's `secure_filename` — an external sanitizer, the identity on the
already-safe names used here. -/
def secure_filename (s : String) : String := s

/-- Python truthiness of an optional string field (`None` and `""` falsy). -/
def pyTruthyStr : Option String → Bool
  | none => false
  | some s => s != ""

/-- The bytes the handler would write as the SVG: the JSON `svg_content`
string, or the multipart uploaded file. -/
inductive UploadContent where
  | jsonStr : String → UploadContent
  | formFile : Blob → UploadContent
deriving Repr, DecidableEq

/-- Result of the `/upload` handler: HTTP status plus the post-request file
system and database, and the `file_id` / `sequence_number` of the created
record when one was created. -/
structure UploadResult where
  status : Nat
  fs : FS
  db : DB
  file_id : Option Nat
  sequence_number : Option Int
deriving Repr, DecidableEq

/-- An `/upload` request.  JSON field values are modelled by their string
form (Python's `int(...)` conversion is modelled by `String.toInt?`);
`json_drawing_type = none` means the key is absent, so `data.get` yields the
default `'LG'`. -/
structure UploadRequest where
  is_json : Bool
  svg_content : Option String
  json_order : Option String
  json_line : Option String
  json_drawing_type : Option String
  json_filename : Option String
  has_file : Bool
  file_name : String
  form_order : Option String
  form_line : Option String
deriving Repr, DecidableEq

/-- src/app.py `upload_file`, lines 124-194: the part after the
JSON/multipart branch.  `drawing_type` is `none` exactly when the handler
took the multipart branch, which assigns the variable in neither path; the
read at line 142 (`drawing_type == 'LG' and 1 or 2`) then raises
`UnboundLocalError`, caught by the handler's `except` as a 500 — before the
SVG is saved and before any record is inserted.  A duplicate
`(order, line, sequence)` makes `insert_file_record` raise, also a 500, but
only after the SVG file was written.  `convertResult` is the external
cairosvg collaborator: `some b` means conversion succeeded producing blob
`b`, `none` means it failed. -/
def upload_common (fs : FS) (db : DB) (orderField lineField : Option String)
    (drawing_type : Option String) (original_filename : String)
    (content : UploadContent) (convertResult : Option Blob) : UploadResult :=
  if !(pyTruthyStr orderField && pyTruthyStr lineField) then ⟨400, fs, db, none, none⟩
  else
    match pyToInt? (orderField.getD ""), pyToInt? (lineField.getD "") with
    | some o, some l =>
      if !(decide (100000 ≤ o) && decide (o ≤ 999999)) then ⟨400, fs, db, none, none⟩
      else if !(decide (1 ≤ l) && decide (l ≤ 999)) then ⟨400, fs, db, none, none⟩
      else
        match drawing_type with
        | none => ⟨500, fs, db, none, none⟩
        | some dt =>
          let seq : Int := if dt == "LG" then 1 else 2
          let filename := secure_filename original_filename
          let svg_path := "uploads/" ++ filename
          let blob :=
            match content with
            | .jsonStr s => strBlob s
            | .formFile b => b
          let fs1 := fsWrite fs svg_path blob
          match insert_file_record db o l filename svg_path blob.size seq with
          | none => ⟨500, fs1, db, none, none⟩
          | some (fid, db1) =>
            let pdf_path := "converted/" ++ rsplitStem filename ++ ".pdf"
            match convertResult with
            | some pb =>
              ⟨201, fsWrite fs1 pdf_path pb,
                update_file_conversion db1 fid (some pdf_path) "converted",
                some fid, some seq⟩
            | none =>
              ⟨500, fs1, update_file_conversion db1 fid none "error",
                some fid, some seq⟩
    | _, _ => ⟨400, fs, db, none, none⟩

/-- src/app.py `upload_file`: the JSON/multipart branch (lines 93-122)
followed by `upload_common`.  Only the JSON branch ever assigns
`drawing_type`. -/
def upload_file (fs : FS) (db : DB) (req : UploadRequest)
    (convertResult : Option Blob) : UploadResult :=
  if req.is_json then
    match req.svg_content with
    | none => ⟨400, fs, db, none, none⟩
    | some sc =>
      if sc == "" then ⟨400, fs, db, none, none⟩
      else
        upload_common fs db req.json_order req.json_line
          (some (req.json_drawing_type.getD "LG"))
          (req.json_filename.getD "uploaded.svg") (.jsonStr sc) convertResult
  else
    if !req.has_file then ⟨400, fs, db, none, none⟩
    else if req.file_name == "" then ⟨400, fs, db, none, none⟩
    else if !allowed_file req.file_name then ⟨400, fs, db, none, none⟩
    else
      upload_common fs db req.form_order req.form_line none req.file_name
        (.formFile (strBlob "uploaded-bytes")) convertResult

/-- The parsed order identifier is a positive 6-digit number. -/
def inRange6 : Option Int → Prop
  | none => False
  | some o => 100000 ≤ o ∧ o ≤ 999999

instance : (o? : Option Int) → Decidable (inRange6 o?)
  | none => Decidable.isFalse (fun h => h)
  | some o => inferInstanceAs (Decidable (100000 ≤ o ∧ o ≤ 999999))

/-- The parsed line identifier lies in `[1, 999]`. -/
def inRange3 : Option Int → Prop
  | none => False
  | some l => 1 ≤ l ∧ l ≤ 999

instance : (l? : Option Int) → Decidable (inRange3 l?)
  | none => Decidable.isFalse (fun h => h)
  | some l => inferInstanceAs (Decidable (1 ≤ l ∧ l ≤ 999))

/-- A multipart request that passes every pre-`drawing_type` validation of
the handler: a non-empty `.svg` file plus present, parseable, in-range
identifiers. -/
def multipartPassesValidation (req : UploadRequest) : Prop :=
  req.has_file = true ∧ req.file_name ≠ "" ∧
  allowed_file req.file_name = true ∧
  pyTruthyStr req.form_order = true ∧ pyTruthyStr req.form_line = true ∧
  inRange6 (pyToInt? (req.form_order.getD "")) ∧
  inRange3 (pyToInt? (req.form_line.getD ""))

instance (req : UploadRequest) : Decidable (multipartPassesValidation req) := by
  unfold multipartPassesValidation
  infer_instance

/-- Response of the `/merge/<order>` endpoint. -/
structure MergeResponse where
  status : Nat
  merged_id : Option Nat
  error : Option String
deriving Repr, DecidableEq

/-- src/app.py `merge_order_pdfs`: runs the merge (specific lines when the
JSON body carries a truthy `line_numbers`, else merge-all), 400 with the
error message on failure, and on success records the size, the merged
lines (the requested list, or the available lines of a fresh summary) and a
new `merged_files` row. -/
def merge_order_pdfs (fs : FS) (db : DB) (o : Int)
    (specific_lines : Option (List Int)) (w : WriteResult) :
    FS × DB × MergeResponse :=
  let lines :=
    match specific_lines with
    | some l => if l.isEmpty then [] else l
    | none => []
  let r := merge_pdfs_by_order fs db o lines none w
  match r.2 with
  | .error e => (r.1, db, ⟨400, none, some e⟩)
  | .ok path =>
    let size := ((fsLookup r.1 path).map Blob.size).getD 0
    let s := get_order_summary r.1 db o
    let merged_lines :=
      if lines.isEmpty then s.available_pdfs.map (·.line_number) else lines
    match insert_merged_file_record db o path size merged_lines
        merged_lines.length none with
    | none => (r.1, db, ⟨500, none, some "Server error"⟩)
    | some (mid, db2) => (r.1, db2, ⟨201, some mid, none⟩)

/-! ## Concrete states used by the counterexamples and witnesses -/

def pdfBlob (s : String) (k : Nat) : Blob := ⟨s, some k⟩

/-- JSON upload, default drawing type (`LG`), order 123456 line 1. -/
def reqLG : UploadRequest :=
  ⟨true, some "AA", some "123456", some "1", none, some "a.svg", false, "", none, none⟩

/-- JSON upload, drawing type `U1`, same order/line and the same file name. -/
def reqU1 : UploadRequest :=
  ⟨true, some "BBBB", some "123456", some "1", some "U1", some "a.svg", false, "", none, none⟩

/-- A multipart upload request carrying a well-formed `.svg` file and valid
identifiers. -/
def reqMultipart : UploadRequest :=
  ⟨false, none, none, none, none, none, true, "d.svg", some "123456", some "7"⟩

def uploadLG : UploadResult := upload_file [] emptyDB reqLG (some (pdfBlob "P1" 2))

def uploadU1 : UploadResult :=
  upload_file uploadLG.fs uploadLG.db reqU1 (some (pdfBlob "P2" 3))

/-- A `U1` upload into a fresh database. -/
def uploadU1only : UploadResult := upload_file [] emptyDB reqU1 (some (pdfBlob "P2" 3))

/-- Three records over two `(order, line)` keys: key (111111, 1) holds
sequence 1 only; key (222222, 2) holds sequences 1 and 2. -/
def dbTwoKeys : DB :=
  ⟨[⟨1, 111111, 1, 1, "a.svg", "uploads/a.svg", some "converted/a.pdf", "converted", 2⟩,
    ⟨2, 222222, 2, 1, "b.svg", "uploads/b.svg", some "converted/b.pdf", "converted", 2⟩,
    ⟨3, 222222, 2, 2, "c.svg", "uploads/c.svg", some "converted/c.pdf", "converted", 2⟩],
   [], 4, 1⟩

/-- Order 123456 with TWO stored versions of line 1, both converted. -/
def dbTwoVersions : DB :=
  ⟨[⟨1, 123456, 1, 1, "a.svg", "uploads/a.svg", some "converted/a.pdf", "converted", 2⟩,
    ⟨2, 123456, 1, 2, "b.svg", "uploads/b.svg", some "converted/b.pdf", "converted", 4⟩],
   [], 3, 1⟩

/-- Both versions' derived PDFs exist and are valid. -/
def fsTwoVersions : FS :=
  [("converted/a.pdf", pdfBlob "P1" 2), ("converted/b.pdf", pdfBlob "P2" 3)]

/-- Order 123456 with lines 1 and 2, one version each, both marked
converted with existing derived files. -/
def dbTwoLines : DB :=
  ⟨[⟨1, 123456, 1, 1, "a.svg", "uploads/a.svg", some "converted/a.pdf", "converted", 2⟩,
    ⟨2, 123456, 2, 1, "b.svg", "uploads/b.svg", some "converted/b.pdf", "converted", 4⟩],
   [], 3, 1⟩

/-- Line 1's PDF is valid; line 2's file exists but is not parseable as a
PDF (corrupt). -/
def fsMixed : FS :=
  [("converted/a.pdf", pdfBlob "P1" 2), ("converted/b.pdf", ⟨"JUNK", none⟩)]

/-- `dbTwoVersions` plus an already-recorded merged artifact whose
`merged_pdf_path` is the fixed per-order output path. -/
def dbPriorMerge : DB :=
  { dbTwoVersions with
    merged := [⟨1, 123456, 1, "converted/merged_123456.pdf", 3, [1], 1, "completed"⟩],
    nextMergedId := 2 }

/-- `fsTwoVersions` plus the bytes of the previously recorded merged
artifact at the fixed per-order path. -/
def fsPriorMerge : FS :=
  ("converted/merged_123456.pdf", pdfBlob "OLD" 5) :: fsTwoVersions

/-- The `/merge/123456` run on `fsPriorMerge`/`dbPriorMerge` in which the
external write fails midway, leaving the partial blob `"PART"`. -/
def mergeWriteFail : FS × DB × MergeResponse :=
  merge_order_pdfs fsPriorMerge dbPriorMerge 123456 none (.failAfter (strBlob "PART"))

/-! ## General lemmas about the embedded operations -/

/-- `sqlMax` of a non-empty column is an attained upper bound. -/
theorem sqlMax_spec (l : List Int) (h : l ≠ []) :
    ∃ m, sqlMax l = some m ∧ m ∈ l ∧ ∀ x ∈ l, x ≤ m := by
  induction l with
  | nil => exact absurd rfl h
  | cons x xs ih =>
    by_cases hxs : xs = []
    · subst hxs
      exact ⟨x, by simp [sqlMax], by simp, by simp⟩
    · obtain ⟨m, hm, hmem, hub⟩ := ih hxs
      refine ⟨max x m, by simp [sqlMax, hm], ?_, ?_⟩
      · rcases max_choice x m with h1 | h1 <;> rw [h1]
        · exact List.mem_cons_self x xs
        · exact List.mem_cons_of_mem x hmem
      · intro y hy
        rcases List.mem_cons.mp hy with rfl | hy
        · exact le_max_left _ _
        · exact le_trans (hub y hy) (le_max_right _ _)

/-- Partitioning a list by a Boolean predicate preserves total length. -/
theorem length_filter_partition (p : α → Bool) (l : List α) :
    (l.filter p).length + (l.filter (fun a => !p a)).length = l.length := by
  induction l with
  | nil => rfl
  | cons x xs ih =>
    by_cases h : p x <;> simp [List.filter_cons, h, ← ih] <;> omega

/-- `validate_pdf_files` is exactly the order-preserving partition of the
paths by `pathValidPdf`. -/
theorem validate_pdf_files_eq (fs : FS) (ps : List String) :
    validate_pdf_files fs ps =
      (ps.filter (pathValidPdf fs), ps.filter (fun p => !pathValidPdf fs p)) := by
  induction ps with
  | nil => rfl
  | cons p ps ih =>
    by_cases h : pathValidPdf fs p <;>
      simp [validate_pdf_files, ih, List.filter_cons, h]

/-- A successful specific-lines plan lists exactly the requested lines, in
the caller-given order, repeats included. -/
theorem planSpecificLines_ok_map (avail : List LineInfo) (ns : List Int)
    (ps : List LineInfo) (h : planSpecificLines avail ns = .ok ps) :
    ps.map (·.line_number) = ns := by
  induction ns generalizing ps with
  | nil =>
    simp only [planSpecificLines] at h
    cases h
    rfl
  | cons n ns ih =>
    simp only [planSpecificLines] at h
    cases hf : avail.find? (fun p => p.line_number == n) with
    | none => rw [hf] at h; cases h
    | some p =>
      rw [hf] at h
      cases hr : planSpecificLines avail ns with
      | error m => rw [hr] at h; cases h
      | ok qs =>
        rw [hr] at h
        cases h
        have hline : p.line_number = n := by
          have := List.find?_some hf
          simpa using this
        simp [hline, ih qs hr]

/-- A failed specific-lines plan fails on a requested line that has no
available entry. -/
theorem planSpecificLines_error (avail : List LineInfo) (ns : List Int)
    (m : Int) (h : planSpecificLines avail ns = .error m) :
    m ∈ ns ∧ avail.find? (fun p => p.line_number == m) = none := by
  induction ns with
  | nil => simp only [planSpecificLines] at h; cases h
  | cons n ns ih =>
    simp only [planSpecificLines] at h
    cases hf : avail.find? (fun p => p.line_number == n) with
    | none =>
      rw [hf] at h
      cases h
      exact ⟨List.mem_cons_self _ _, hf⟩
    | some p =>
      rw [hf] at h
      cases hr : planSpecificLines avail ns with
      | error k =>
        rw [hr] at h
        cases h
        obtain ⟨h1, h2⟩ := ih hr
        exact ⟨List.mem_cons_of_mem _ h1, h2⟩
      | ok qs => rw [hr] at h; cases h

/-- A successful specific-lines plan resolved every requested line. -/
theorem planSpecificLines_ok_resolves (avail : List LineInfo) (ns : List Int)
    (ps : List LineInfo) (h : planSpecificLines avail ns = .ok ps) :
    ∀ n ∈ ns, (avail.find? (fun p => p.line_number == n)).isSome := by
  induction ns generalizing ps with
  | nil => intro n hn; cases hn
  | cons n ns ih =>
    simp only [planSpecificLines] at h
    cases hf : avail.find? (fun p => p.line_number == n) with
    | none => rw [hf] at h; cases h
    | some p =>
      rw [hf] at h
      cases hr : planSpecificLines avail ns with
      | error m => rw [hr] at h; cases h
      | ok qs =>
        intro k hk
        rcases List.mem_cons.mp hk with rfl | hk
        · rw [hf]; rfl
        · exact ih qs hr k hk

/-- The two summary lists together carry one entry per stored record of the
order (not per distinct line). -/
theorem summary_counts (fs : FS) (db : DB) (o : Int) :
    (get_order_summary fs db o).available_pdfs.length +
      (get_order_summary fs db o).missing_pdfs.length =
      (get_files_by_order db o).length := by
  by_cases h : (get_files_by_order db o).isEmpty
  · have h2 : get_files_by_order db o = [] := List.isEmpty_iff.mp h
    simp [get_order_summary, h2]
  · have hlen := length_filter_partition
      (fun i : LineInfo => lineAvailable fs i.pdf_path)
      ((get_files_by_order db o).map lineInfoOf)
    simp only [get_order_summary, h, Bool.false_eq_true, if_false,
      List.length_insertionSort]
    simpa using hlen

/-- Both summary lists are sorted ascending by `line_number`. -/
theorem summary_sorted (fs : FS) (db : DB) (o : Int) :
    List.Sorted lineInfoLe (get_order_summary fs db o).available_pdfs ∧
    List.Sorted lineInfoLe (get_order_summary fs db o).missing_pdfs := by
  by_cases h : (get_files_by_order db o).isEmpty
  · have h2 : get_files_by_order db o = [] := List.isEmpty_iff.mp h
    simp [get_order_summary, h2]
  · constructor <;>
      simp only [get_order_summary, h, Bool.false_eq_true, if_false] <;>
      exact List.sorted_insertionSort lineInfoLe _

/-- An order with zero records yields the explicit empty summary value. -/
theorem summary_empty (fs : FS) (db : DB) (o : Int)
    (h : get_files_by_order db o = []) :
    get_order_summary fs db o = ⟨o, 0, [], [], []⟩ := by
  simp [get_order_summary, h]

/-- `merge_pdfs_by_order` either left the file system untouched, or reached
the write step — in which case it returned the output path on success or the
write-failure message. -/
theorem merge_fs_cases (fs : FS) (db : DB) (o : Int) (ls : List Int)
    (outputPath : Option String) (w : WriteResult) :
    (merge_pdfs_by_order fs db o ls outputPath w).1 = fs ∨
    (merge_pdfs_by_order fs db o ls outputPath w).2 =
      .ok (outputPath.getD (defaultOutputPath o)) ∨
    (merge_pdfs_by_order fs db o ls outputPath w).2 = .error writeFailureMsg := by
  simp only [merge_pdfs_by_order]
  split
  · exact Or.inl rfl
  split
  · exact Or.inl rfl
  split
  · exact Or.inl rfl
  split
  · exact Or.inl rfl
  split
  · exact Or.inl rfl
  split
  · exact Or.inr (Or.inl rfl)
  · exact Or.inr (Or.inr rfl)

/-- The merge endpoint either left the `merged_files` table (indeed the
whole database) unchanged, or answered 201 Created. -/
theorem merge_order_db_cases (fs : FS) (db : DB) (o : Int)
    (sl : Option (List Int)) (w : WriteResult) :
    (merge_order_pdfs fs db o sl w).2.1 = db ∨
    (merge_order_pdfs fs db o sl w).2.2.status = 201 := by
  simp only [merge_order_pdfs]
  split
  · exact Or.inl rfl
  split
  · exact Or.inl rfl
  · exact Or.inr rfl

/-- The file-system component of the merge endpoint is that of the
underlying `merge_pdfs_by_order` call. -/
theorem merge_order_fs_eq (fs : FS) (db : DB) (o : Int)
    (sl : Option (List Int)) (w : WriteResult) :
    (merge_order_pdfs fs db o sl w).1 =
      (merge_pdfs_by_order fs db o
        (match sl with | some l => if l.isEmpty then [] else l | none => [])
        none w).1 := by
  simp only [merge_order_pdfs]
  split
  · rfl
  split
  · rfl
  · rfl

/-- When the handler took the multipart branch, `drawing_type` was never
assigned: the common tail of `upload_file` leaves both stores untouched,
creates nothing, and — once the identifier validations pass — dies with the
500 of the `UnboundLocalError` raised at the `drawing_type` read. -/
theorem upload_common_none_drawing (fs : FS) (db : DB)
    (of lf : Option String) (fn : String) (c : UploadContent)
    (cr : Option Blob) :
    (upload_common fs db of lf none fn c cr).db = db ∧
    (upload_common fs db of lf none fn c cr).fs = fs ∧
    (upload_common fs db of lf none fn c cr).file_id = none ∧
    (upload_common fs db of lf none fn c cr).sequence_number = none ∧
    (∀ o l : Int, (pyTruthyStr of && pyTruthyStr lf) = true →
      pyToInt? (of.getD "") = some o → pyToInt? (lf.getD "") = some l →
      100000 ≤ o → o ≤ 999999 → 1 ≤ l → l ≤ 999 →
      (upload_common fs db of lf none fn c cr).status = 500) := by
  simp only [upload_common]
  split
  · exact ⟨rfl, rfl, rfl, rfl, by intro o l ht _ _ _ _ _ _; simp_all⟩
  split
  · rename_i o l ho hl
    split
    · refine ⟨rfl, rfl, rfl, rfl, ?_⟩
      intro o1 l1 _ ho1 hl1 h1 h2 _ _
      rw [ho] at ho1
      cases ho1
      simp_all
    split
    · refine ⟨rfl, rfl, rfl, rfl, ?_⟩
      intro o1 l1 _ ho1 hl1 _ _ h3 h4
      rw [hl] at hl1
      cases hl1
      simp_all
    · exact ⟨rfl, rfl, rfl, rfl, fun _ _ _ _ _ _ _ _ _ => rfl⟩
  · rename_i hne
    refine ⟨rfl, rfl, rfl, rfl, ?_⟩
    intro o l _ ho hl _ _ _ _
    exact (hne o l ho hl).elim

/-- The common tail with an assigned `drawing_type` only ever reports the
sequence it computed from it: 1 for `LG`, 2 otherwise. -/
theorem upload_common_seq (fs : FS) (db : DB) (of lf : Option String)
    (dt fn : String) (c : UploadContent) (cr : Option Blob) (s : Int)
    (h : (upload_common fs db of lf (some dt) fn c cr).sequence_number = some s) :
    s = if dt == "LG" then 1 else 2 := by
  simp only [upload_common] at h
  split at h
  · cases h
  split at h
  · split at h
    · cases h
    split at h
    · cases h
    · split at h
      · cases h
      · split at h <;> (cases h; rfl)
  · cases h

/-- In merge-all mode, when the order has records, at least one artifact is
available and every available artifact validates, the merge succeeds with
the fixed per-order output path. -/
theorem merge_all_success (fs : FS) (db : DB) (o : Int)
    (h0 : (get_order_summary fs db o).total_files ≠ 0)
    (h1 : (get_order_summary fs db o).available_pdfs ≠ [])
    (h2 : ∀ p ∈ (get_order_summary fs db o).available_pdfs,
      pathValidPdf fs (p.pdf_path.getD "") = true) :
    (merge_pdfs_by_order fs db o [] none .success).2 = .ok (defaultOutputPath o) := by
  have h1' : ¬ (get_order_summary fs db o).available_pdfs.length = 0 := by
    intro h
    exact h1 (List.length_eq_zero.mp h)
  have hvalid : ∀ q ∈ (get_order_summary fs db o).available_pdfs.map
      (fun p => p.pdf_path.getD ""), pathValidPdf fs q = true := by
    intro q hq
    obtain ⟨p, hp, rfl⟩ := List.mem_map.mp hq
    exact h2 p hp
  have hmap : (get_order_summary fs db o).available_pdfs.map
      (fun p => p.pdf_path.getD "") ≠ [] := by
    intro h
    exact h1 (List.map_eq_nil_iff.mp h)
  simp only [merge_pdfs_by_order, merge_plan, List.isEmpty_nil, if_true, if_pos,
    validate_pdf_files_eq]
  rw [if_neg h0, if_neg h1']
  rw [List.filter_eq_nil_iff.mpr (by intro q hq; simp [hvalid q hq]),
    List.filter_eq_self.mpr hvalid]
  simp [hmap]

/-- In specific-lines mode, a requested line with no available entry makes
the whole merge return the unresolved-line error for some such line, with
the file system untouched. -/
theorem merge_specific_unresolved (fs : FS) (db : DB) (o : Int)
    (ls : List Int) (w : WriteResult) (n : Int)
    (hne : ls ≠ [])
    (h0 : (get_order_summary fs db o).total_files ≠ 0)
    (h1 : (get_order_summary fs db o).available_pdfs ≠ [])
    (hn : n ∈ ls)
    (hna : n ∉ (get_order_summary fs db o).available_pdfs.map (·.line_number)) :
    ∃ m ∈ ls, m ∉ (get_order_summary fs db o).available_pdfs.map (·.line_number) ∧
      merge_pdfs_by_order fs db o ls none w = (fs, .error (unresolvedLineMsg m)) := by
  have h1' : ¬ (get_order_summary fs db o).available_pdfs.length = 0 := by
    intro h
    exact h1 (List.length_eq_zero.mp h)
  have hne' : ls.isEmpty = false := by
    cases ls with
    | nil => exact absurd rfl hne
    | cons a as => rfl
  cases hplan : planSpecificLines (get_order_summary fs db o).available_pdfs ls with
  | ok ps =>
    exfalso
    have := planSpecificLines_ok_resolves _ _ _ hplan n hn
    cases hf : (get_order_summary fs db o).available_pdfs.find?
        (fun p => p.line_number == n) with
    | none => rw [hf] at this; cases this
    | some p =>
      have hmem := List.mem_of_find?_eq_some hf
      have hpn : p.line_number = n := by
        have := List.find?_some hf
        simpa using this
      exact hna (List.mem_map.mpr ⟨p, hmem, hpn⟩)
  | error m =>
    obtain ⟨hm, hfind⟩ := planSpecificLines_error _ _ _ hplan
    refine ⟨m, hm, ?_, ?_⟩
    · intro hmem
      obtain ⟨p, hp, hpm⟩ := List.mem_map.mp hmem
      have := List.find?_eq_none.mp hfind p hp
      simp [hpm] at this
    · simp only [merge_pdfs_by_order, merge_plan, hne', Bool.false_eq_true,
        if_false, hplan]
      rw [if_neg h0, if_neg h1']

/-- A successful `merge_pdfs_by_order` always returns the caller-given
output path, defaulted to the fixed per-order path — the path never depends
on the merged sequence number. -/
theorem merge_ok_path (fs : FS) (db : DB) (o : Int) (ls : List Int)
    (outputPath : Option String) (w : WriteResult) (p : String)
    (h : (merge_pdfs_by_order fs db o ls outputPath w).2 = .ok p) :
    p = outputPath.getD (defaultOutputPath o) := by
  simp only [merge_pdfs_by_order] at h
  split at h
  · cases h
  split at h
  · cases h
  split at h
  · cases h
  split at h
  · cases h
  split at h
  · cases h
  split at h
  · cases h; rfl
  · cases h

/-- Inversion for a successful `insert_file_record`: the new rowid is the
AUTOINCREMENT counter and the table grew by exactly the new row. -/
theorem insert_file_record_some (db : DB) (o l : Int) (name svg : String)
    (size : Nat) (seq : Int) (fid : Nat) (db1 : DB)
    (h : insert_file_record db o l name svg size seq = some (fid, db1)) :
    fid = db.nextFileId ∧
    db1.files = db.files ++ [⟨db.nextFileId, o, l, seq, name, svg, none, "uploaded", size⟩] := by
  unfold insert_file_record at h
  split at h
  · cases h
  · cases h
    exact ⟨rfl, rfl⟩

/-- When the common upload tail creates a record, that record's `svg_path`
is `uploads/<sanitized filename>` and its `pdf_path` (when set) is
`converted/<stem>.pdf` — both determined by the filename alone, never by the
sequence number. -/
theorem upload_common_record_path (fs : FS) (db : DB) (of lf : Option String)
    (dt fn : String) (c : UploadContent) (cr : Option Blob) :
    (upload_common fs db of lf (some dt) fn c cr).file_id = none ∨
    ∃ fid r, (upload_common fs db of lf (some dt) fn c cr).file_id = some fid ∧
      r ∈ (upload_common fs db of lf (some dt) fn c cr).db.files ∧
      r.id = fid ∧
      r.svg_path = "uploads/" ++ secure_filename fn ∧
      (r.pdf_path = none ∨
        r.pdf_path = some ("converted/" ++ rsplitStem (secure_filename fn) ++ ".pdf")) := by
  simp only [upload_common]
  split
  · exact Or.inl rfl
  split
  · rename_i ol ll hol hll
    split
    · exact Or.inl rfl
    split
    · exact Or.inl rfl
    · split
      · exact Or.inl rfl
      · rename_i fid db1 hi
        obtain ⟨rfl, hdb1⟩ := insert_file_record_some _ _ _ _ _ _ _ _ _ hi
        cases cr with
        | some pb =>
          refine Or.inr ⟨db.nextFileId,
            ⟨db.nextFileId, ol, ll, (if dt == ("LG" : String) then 1 else 2), secure_filename fn,
              "uploads/" ++ secure_filename fn,
              some ("converted/" ++ rsplitStem (secure_filename fn) ++ ".pdf"),
              "converted",
              (match c with
                | UploadContent.jsonStr s => strBlob s
                | UploadContent.formFile b => b).size⟩,
            rfl, ?_, rfl, rfl, Or.inr rfl⟩
          simp only [update_file_conversion, hdb1]
          refine List.mem_map.mpr
            ⟨⟨db.nextFileId, ol, ll, (if dt == ("LG" : String) then 1 else 2), secure_filename fn,
              "uploads/" ++ secure_filename fn, none, "uploaded",
              (match c with
                | UploadContent.jsonStr s => strBlob s
                | UploadContent.formFile b => b).size⟩, by simp, ?_⟩
          simp
        | none =>
          refine Or.inr ⟨db.nextFileId,
            ⟨db.nextFileId, ol, ll, (if dt == ("LG" : String) then 1 else 2), secure_filename fn,
              "uploads/" ++ secure_filename fn, none, "error",
              (match c with
                | UploadContent.jsonStr s => strBlob s
                | UploadContent.formFile b => b).size⟩,
            rfl, ?_, rfl, rfl, Or.inl rfl⟩
          simp only [update_file_conversion, hdb1]
          refine List.mem_map.mpr
            ⟨⟨db.nextFileId, ol, ll, (if dt == ("LG" : String) then 1 else 2), secure_filename fn,
              "uploads/" ++ secure_filename fn, none, "uploaded",
              (match c with
                | UploadContent.jsonStr s => strBlob s
                | UploadContent.formFile b => b).size⟩, by simp, ?_⟩
          simp
  · exact Or.inl rfl

/-! ## Claim theorems -/

/-- C2 (code_bug): `get_file_by_order_line` ("GetLatest") compares against
`MAX(sequence_number)` over the WHOLE `files` table.  Key (111111, 1) holds
exactly one record, with sequence 1, but the function returns `none` because
another key holds sequence 2 — GetLatest is absent for a key that has
records, and does not return the element of `get_all_files_by_order_line`
("GetAllVersions") with the maximum sequence. -/
theorem C2_get_latest_global_max_bug :
    get_file_by_order_line dbTwoKeys 111111 1 = none ∧
    (get_all_files_by_order_line dbTwoKeys 111111 1).map (·.sequence_number) = [1] ∧
    get_all_files_by_order_line dbTwoKeys 111111 1 ≠ [] := by
  decide

/-- C1 (counterexample): on a fresh database `get_next_sequence_number`
("NextSequence") returns 1, yet a successful upload with drawing type `U1`
inserts its record with sequence 2 — not the auto-assigned next value — so
the stored sequences for the key are `[2]`, which is not the contiguous
`1..N`. -/
theorem C1_counterexample :
    get_next_sequence_number emptyDB 123456 1 = 1 ∧
    uploadU1only.status = 201 ∧
    (get_all_files_by_order_line uploadU1only.db 123456 1).map
      (·.sequence_number) = [2] := by
  decide

/-- C3 (counterexample): a merge whose write fails does NOT abort without
side effects: the run answers 400 and inserts no record, but it leaves the
partial blob at the fixed output path — which is exactly the
`merged_pdf_path` of the previously recorded merged artifact, whose bytes
(`"OLD"`, 5 pages) are thereby destroyed. -/
theorem C3_counterexample :
    mergeWriteFail.2.2.status = 400 ∧
    mergeWriteFail.2.1 = dbPriorMerge ∧
    dbPriorMerge.merged.map (·.merged_pdf_path) = [defaultOutputPath 123456] ∧
    fsLookup fsPriorMerge (defaultOutputPath 123456) = some (pdfBlob "OLD" 5) ∧
    fsLookup mergeWriteFail.1 (defaultOutputPath 123456) = some (strBlob "PART") := by
  decide

/-- C4 (counterexample): in merge-all mode, an order with records (2) and a
non-zero available count (2) still fails, because line 2's artifact exists
but is corrupt — so "errors only when the order has no records or zero
artifacts are available" is false. -/
theorem C4_counterexample :
    (get_order_summary fsMixed dbTwoLines 123456).total_files = 2 ∧
    (get_order_summary fsMixed dbTwoLines 123456).available_pdfs.length = 2 ∧
    (merge_pdfs_by_order fsMixed dbTwoLines 123456 [] none .success).2 =
      .error "Invalid or corrupted PDFs for line numbers: [2]" := by
  decide

/-- C5 (counterexample): with two stored versions of the single line 1, the
summary lists carry one entry per stored VERSION: the counts sum to 2, while
the order has exactly 1 distinct line. -/
theorem C5_counterexample :
    (get_order_summary fsTwoVersions dbTwoVersions 123456).available_pdfs.length +
      (get_order_summary fsTwoVersions dbTwoVersions 123456).missing_pdfs.length = 2 ∧
    ((get_files_by_order dbTwoVersions 123456).map (·.line_number)).dedup.length = 1 := by
  decide

/-- C6 (counterexample): in merge-all mode, with two available versions of
line 1 the plan lists line 1 twice — ascending but NOT strictly
ascending. -/
theorem C6_counterexample :
    (merge_plan (get_order_summary fsTwoVersions dbTwoVersions 123456) []).map
      (fun ps => ps.map (·.line_number)) = .ok [1, 1] ∧
    ¬ List.Sorted (· < ·) ([1, 1] : List Int) := by
  decide

/-- C7 (counterexample): two successful uploads of versions 1 and 2 of the
same line, both named `a.svg`, store BOTH records with the same
`svg_path`/`pdf_path`; after the second upload the shared path holds only
the second version's bytes — the first version's bytes were overwritten in
place. -/
theorem C7_counterexample :
    uploadLG.status = 201 ∧ uploadU1.status = 201 ∧
    uploadU1.db.files.map (fun r => (r.sequence_number, r.svg_path, r.pdf_path)) =
      [(1, "uploads/a.svg", some "converted/a.pdf"),
       (2, "uploads/a.svg", some "converted/a.pdf")] ∧
    fsLookup uploadLG.fs "uploads/a.svg" = some (strBlob "AA") ∧
    fsLookup uploadU1.fs "uploads/a.svg" = some (strBlob "BBBB") := by
  decide

/-- C8 (counterexample): Preview does not compute the same plan as Plan:
for request `[2]` the plan fails with the unresolved-line error while the
preview succeeds with an empty plan, and for request `[1, 1]` the plan
duplicates the first version of line 1 while the preview lists each stored
version once. -/
theorem C8_counterexample :
    (merge_pdfs_by_order fsTwoVersions dbTwoVersions 123456 [2] none .success).2 =
      .error (unresolvedLineMsg 2) ∧
    (get_merge_preview fsTwoVersions dbTwoVersions 123456 [2]).merge_details = [] ∧
    (get_merge_preview fsTwoVersions dbTwoVersions 123456 [2]).files_to_merge = 0 ∧
    (merge_plan (get_order_summary fsTwoVersions dbTwoVersions 123456) [1, 1]).map
      (fun ps => ps.map (·.filename)) = .ok ["a.svg", "a.svg"] ∧
    (get_merge_preview fsTwoVersions dbTwoVersions 123456 [1, 1]).merge_details.map
      (·.filename) = ["a.svg", "b.svg"] := by
  decide

/-- C1 (amended): `get_next_sequence_number` does return 1 for a fresh key
and max(existing sequence)+1 otherwise, but `upload_file` never consults it:
whenever an upload reports a sequence it is 1 when the request's drawing
type is `LG` and 2 otherwise, independent of the stored state — so stored
sequences need not form a contiguous `1..N`. -/
theorem C1_amended (db : DB) (o l : Int) :
    (filesForKey db o l = [] → get_next_sequence_number db o l = 1) ∧
    (filesForKey db o l ≠ [] →
      ∃ m, m ∈ (filesForKey db o l).map (·.sequence_number) ∧
        (∀ x ∈ (filesForKey db o l).map (·.sequence_number), x ≤ m) ∧
        get_next_sequence_number db o l = m + 1) ∧
    (∀ fs req cr s,
      (upload_file fs db req cr).sequence_number = some s →
      s = if req.json_drawing_type.getD "LG" == "LG" then 1 else 2) := by
  refine ⟨?_, ?_, ?_⟩
  · intro h
    simp [get_next_sequence_number, h, sqlMax]
  · intro h
    have hmap : (filesForKey db o l).map (·.sequence_number) ≠ [] := by
      intro hh
      exact h (List.map_eq_nil_iff.mp hh)
    obtain ⟨m, hm, hmem, hub⟩ :=
      sqlMax_spec ((filesForKey db o l).map (·.sequence_number)) hmap
    exact ⟨m, hmem, hub, by simp [get_next_sequence_number, hm]⟩
  · intro fs req cr s h
    cases hj : req.is_json with
    | false =>
      obtain ⟨_, _, _, hseq, _⟩ := upload_common_none_drawing fs db
        req.form_order req.form_line req.file_name
        (.formFile (strBlob "uploaded-bytes")) cr
      simp only [upload_file, hj, Bool.false_eq_true, if_false] at h
      split at h
      · cases h
      split at h
      · cases h
      split at h
      · cases h
      · rw [hseq] at h; cases h
    | true =>
      cases hsc : req.svg_content with
      | none =>
        have hupl : upload_file fs db req cr = ⟨400, fs, db, none, none⟩ := by
          simp [upload_file, hj, hsc]
        rw [hupl] at h
        cases h
      | some sc =>
        by_cases hq : (sc == "") = true
        · have hupl : upload_file fs db req cr = ⟨400, fs, db, none, none⟩ := by
            simp [upload_file, hj, hsc, hq]
          rw [hupl] at h
          cases h
        · have hupl : upload_file fs db req cr = upload_common fs db
              req.json_order req.json_line
              (some (req.json_drawing_type.getD "LG"))
              (req.json_filename.getD "uploaded.svg") (.jsonStr sc) cr := by
            simp only [upload_file, hj, hsc, if_true]
            rw [if_neg hq]
          rw [hupl] at h
          exact upload_common_seq _ _ _ _ _ _ _ _ _ h

/-- C1 (witness): the three parts of `C1_amended` applied at concrete
states: NextSequence is 1 on a fresh key and max+1 (= 3) on a key holding
sequences 1 and 2, and the `U1` upload reported sequence 2 as computed from
its drawing type. -/
theorem C1_witness :
    get_next_sequence_number dbTwoVersions 999999 1 = 1 ∧
    (∃ m, m ∈ (filesForKey dbTwoVersions 123456 1).map (·.sequence_number) ∧
      (∀ x ∈ (filesForKey dbTwoVersions 123456 1).map (·.sequence_number), x ≤ m) ∧
      get_next_sequence_number dbTwoVersions 123456 1 = m + 1) ∧
    (2 : Int) = (if reqU1.json_drawing_type.getD "LG" == "LG" then 1 else 2) :=
  ⟨(C1_amended dbTwoVersions 999999 1).1 (by decide),
   (C1_amended dbTwoVersions 123456 1).2.1 (by decide),
   (C1_amended emptyDB 123456 1).2.2 [] reqU1 (some (pdfBlob "P2" 3)) 2 (by decide)⟩

/-- C3 (amended): validation precedes any write — a merge failure other
than a failed write leaves the blob store untouched — and no non-201 run of
the merge endpoint touches the database; but a failing write does leave a
partial output file at the fixed per-order path (see the counterexample),
so "no partial output file" does not hold. -/
theorem C3_amended (fs : FS) (db : DB) (o : Int) (ls : List Int)
    (outputPath : Option String) (w : WriteResult) (sl : Option (List Int)) :
    (∀ e, (merge_pdfs_by_order fs db o ls outputPath w).2 = .error e →
      e ≠ writeFailureMsg →
      (merge_pdfs_by_order fs db o ls outputPath w).1 = fs) ∧
    ((merge_order_pdfs fs db o sl w).2.2.status ≠ 201 →
      (merge_order_pdfs fs db o sl w).2.1 = db) := by
  constructor
  · intro e he hne
    rcases merge_fs_cases fs db o ls outputPath w with h2 | h2 | h2
    · exact h2
    · rw [he] at h2; cases h2
    · rw [he] at h2
      injection h2 with h3
      exact absurd h3 hne
  · intro h
    rcases merge_order_db_cases fs db o sl w with h2 | h2
    · exact h2
    · exact absurd h2 h

/-- C3 (witness): `C3_amended` applied at concrete runs — the unresolved
line [2] failure writes nothing, and the failing-write run inserts no
record. -/
theorem C3_witness :
    (merge_pdfs_by_order fsTwoVersions dbTwoVersions 123456 [2] none .success).1 =
      fsTwoVersions ∧
    mergeWriteFail.2.1 = dbPriorMerge :=
  ⟨(C3_amended fsTwoVersions dbTwoVersions 123456 [2] none .success none).1
      (unresolvedLineMsg 2) (by decide) (by decide),
   (C3_amended fsPriorMerge dbPriorMerge 123456 [] none
      (.failAfter (strBlob "PART")) none).2 (by decide)⟩

/-- C4 (amended): in merge-all mode, missing/unconverted lines never cause
failure — if the order has records, at least one artifact is available and
every AVAILABLE artifact passes validation, the merge succeeds (the
counterexample shows a corrupt available artifact is a further failure case
the claim omitted); in specific-lines mode an unresolved requested line
fails the entire request with the unresolved-line error naming such a line,
leaving the blob store and the database untouched. -/
theorem C4_amended (fs : FS) (db : DB) (o : Int) :
    ((get_order_summary fs db o).total_files ≠ 0 →
      (get_order_summary fs db o).available_pdfs ≠ [] →
      (∀ p ∈ (get_order_summary fs db o).available_pdfs,
        pathValidPdf fs (p.pdf_path.getD "") = true) →
      (merge_pdfs_by_order fs db o [] none .success).2 =
        .ok (defaultOutputPath o)) ∧
    (∀ ls w n, ls ≠ [] →
      (get_order_summary fs db o).total_files ≠ 0 →
      (get_order_summary fs db o).available_pdfs ≠ [] →
      n ∈ ls →
      n ∉ (get_order_summary fs db o).available_pdfs.map (·.line_number) →
      ∃ m ∈ ls,
        m ∉ (get_order_summary fs db o).available_pdfs.map (·.line_number) ∧
        merge_order_pdfs fs db o (some ls) w =
          (fs, db, ⟨400, none, some (unresolvedLineMsg m)⟩)) := by
  constructor
  · exact merge_all_success fs db o
  · intro ls w n hne h0 h1 hn hna
    obtain ⟨m, hm, hmna, hmerge⟩ :=
      merge_specific_unresolved fs db o ls w n hne h0 h1 hn hna
    refine ⟨m, hm, hmna, ?_⟩
    have hne' : ls.isEmpty = false := by
      cases ls with
      | nil => exact absurd rfl hne
      | cons a as => rfl
    simp only [merge_order_pdfs, hne', Bool.false_eq_true, if_false, hmerge]

/-- C4 (witness): both modes of `C4_amended` at concrete states: the
all-available merge of two valid versions succeeds, and requesting the
unavailable line 2 fails with its unresolved-line error and no state
change. -/
theorem C4_witness :
    (merge_pdfs_by_order fsTwoVersions dbTwoVersions 123456 [] none .success).2 =
      .ok (defaultOutputPath 123456) ∧
    ∃ m ∈ [(2 : Int)],
      m ∉ (get_order_summary fsTwoVersions dbTwoVersions 123456).available_pdfs.map
        (·.line_number) ∧
      merge_order_pdfs fsTwoVersions dbTwoVersions 123456 (some [2]) .success =
        (fsTwoVersions, dbTwoVersions, ⟨400, none, some (unresolvedLineMsg 2)⟩) := by
  constructor
  · exact (C4_amended fsTwoVersions dbTwoVersions 123456).1
      (by decide) (by decide) (by decide)
  · obtain ⟨m, hm, hmna, hmerge⟩ :=
      (C4_amended fsTwoVersions dbTwoVersions 123456).2 [2] .success 2
        (by decide) (by decide) (by decide) (by decide) (by decide)
    have hm2 : m = 2 := by
      rcases List.mem_singleton.mp hm with rfl
      rfl
    subst hm2
    exact ⟨2, hm, hmna, hmerge⟩

/-- C5 (amended): the summary lists are each sorted ascending by line and
jointly carry one entry per stored RECORD of the order — every version, not
one per distinct line — so the counts sum to the record count (the
counterexample shows this differs from the distinct-line count); an order
with zero records yields the explicit empty summary value. -/
theorem C5_amended (fs : FS) (db : DB) (o : Int) :
    ((get_order_summary fs db o).available_pdfs.length +
      (get_order_summary fs db o).missing_pdfs.length =
      (get_files_by_order db o).length) ∧
    List.Sorted lineInfoLe (get_order_summary fs db o).available_pdfs ∧
    List.Sorted lineInfoLe (get_order_summary fs db o).missing_pdfs ∧
    (get_files_by_order db o = [] →
      get_order_summary fs db o = ⟨o, 0, [], [], []⟩) :=
  ⟨summary_counts fs db o, (summary_sorted fs db o).1,
   (summary_sorted fs db o).2, summary_empty fs db o⟩

/-- C5 (witness): `C5_amended` applied at the two-version state (counts sum
to the record count 2) and at an empty order (explicit empty summary). -/
theorem C5_witness :
    ((get_order_summary fsTwoVersions dbTwoVersions 123456).available_pdfs.length +
      (get_order_summary fsTwoVersions dbTwoVersions 123456).missing_pdfs.length =
      (get_files_by_order dbTwoVersions 123456).length) ∧
    get_order_summary fsTwoVersions emptyDB 555555 = ⟨555555, 0, [], [], []⟩ :=
  ⟨(C5_amended fsTwoVersions dbTwoVersions 123456).1,
   (C5_amended fsTwoVersions emptyDB 555555).2.2.2 (by decide)⟩

/-- C6 (amended): the all-available plan lists lines in ASCENDING (not
strictly ascending — one entry per stored available version, so a line can
repeat) order, and a successful specific-lines plan matches the caller-given
order exactly, repeats included. -/
theorem C6_amended (fs : FS) (db : DB) (o : Int) :
    List.Sorted (· ≤ ·)
      ((get_order_summary fs db o).available_pdfs.map (·.line_number)) ∧
    (∀ ls ps, ls ≠ [] →
      merge_plan (get_order_summary fs db o) ls = .ok ps →
      ps.map (·.line_number) = ls) := by
  constructor
  · exact ((summary_sorted fs db o).1).map _ (fun a b h => h)
  · intro ls ps hne h
    have hne' : ls.isEmpty = false := by
      cases ls with
      | nil => exact absurd rfl hne
      | cons a as => rfl
    simp only [merge_plan, hne', Bool.false_eq_true, if_false] at h
    cases hp : planSpecificLines (get_order_summary fs db o).available_pdfs ls with
    | error m => rw [hp] at h; cases h
    | ok qs =>
      rw [hp] at h
      cases h
      exact planSpecificLines_ok_map _ _ _ hp

/-- C6 (witness): `C6_amended` applied concretely: the all-mode plan lines
of the two-version state are sorted, and the plan for request `[2, 1]` on
the two-line state returns exactly lines `[2, 1]` in caller order. -/
theorem C6_witness :
    List.Sorted (· ≤ ·)
      ((get_order_summary fsTwoVersions dbTwoVersions 123456).available_pdfs.map
        (·.line_number)) ∧
    ([(⟨2, "b.svg", "converted", some "converted/b.pdf"⟩ : LineInfo),
      ⟨1, "a.svg", "converted", some "converted/a.pdf"⟩].map (·.line_number) =
      [2, 1]) :=
  ⟨(C6_amended fsTwoVersions dbTwoVersions 123456).1,
   (C6_amended fsTwoVersions dbTwoLines 123456).2 [2, 1]
     [⟨2, "b.svg", "converted", some "converted/b.pdf"⟩,
      ⟨1, "a.svg", "converted", some "converted/a.pdf"⟩]
     (by decide) (by decide)⟩

/-- C7 (amended): stored artifact paths are NOT fresh per version: whenever
an upload creates a record, that record's `svg_path` is
`uploads/<sanitized filename>` and its `pdf_path`, when set, is
`converted/<stem>.pdf` — both functions of the request's filename alone —
and every successful default-path merge writes to the one fixed per-order
output path; re-using a filename or re-merging an order therefore overwrites
the previous version's bytes in place (see the counterexample). -/
theorem C7_amended :
    (∀ fs db req cr fid,
      (upload_file fs db req cr).file_id = some fid →
      ∃ r ∈ (upload_file fs db req cr).db.files, r.id = fid ∧
        r.svg_path =
          "uploads/" ++ secure_filename (req.json_filename.getD "uploaded.svg") ∧
        (r.pdf_path = none ∨ r.pdf_path = some ("converted/" ++
          rsplitStem (secure_filename (req.json_filename.getD "uploaded.svg")) ++
          ".pdf"))) ∧
    (∀ fs db o ls w p,
      (merge_pdfs_by_order fs db o ls none w).2 = .ok p →
      p = defaultOutputPath o) := by
  constructor
  · intro fs db req cr fid h
    cases hj : req.is_json with
    | false =>
      obtain ⟨_, _, hfid, _, _⟩ := upload_common_none_drawing fs db
        req.form_order req.form_line req.file_name
        (.formFile (strBlob "uploaded-bytes")) cr
      simp only [upload_file, hj, Bool.false_eq_true, if_false] at h
      split at h
      · cases h
      split at h
      · cases h
      split at h
      · cases h
      · rw [hfid] at h; cases h
    | true =>
      cases hsc : req.svg_content with
      | none =>
        have hupl : upload_file fs db req cr = ⟨400, fs, db, none, none⟩ := by
          simp [upload_file, hj, hsc]
        rw [hupl] at h
        cases h
      | some sc =>
        by_cases hq : (sc == "") = true
        · have hupl : upload_file fs db req cr = ⟨400, fs, db, none, none⟩ := by
            simp [upload_file, hj, hsc, hq]
          rw [hupl] at h
          cases h
        · have hupl : upload_file fs db req cr = upload_common fs db
              req.json_order req.json_line
              (some (req.json_drawing_type.getD "LG"))
              (req.json_filename.getD "uploaded.svg") (.jsonStr sc) cr := by
            simp only [upload_file, hj, hsc, if_true]
            rw [if_neg hq]
          rw [hupl] at h ⊢
          rcases upload_common_record_path fs db req.json_order req.json_line
              (req.json_drawing_type.getD "LG") (req.json_filename.getD "uploaded.svg")
              (.jsonStr sc) cr with h2 | ⟨fid2, r, hfid2, hr, hid, hsvg, hpdf⟩
          · rw [h2] at h; cases h
          · rw [hfid2] at h
            injection h with h3
            subst h3
            exact ⟨r, hr, hid, hsvg, hpdf⟩
  · intro fs db o ls w p h
    have := merge_ok_path fs db o ls none w p h
    simpa using this

/-- C7 (witness): `C7_amended` applied concretely: the record created by
the first upload carries the filename-determined paths, and the successful
all-available merge's output path is the fixed per-order path. -/
theorem C7_witness :
    (∃ r ∈ uploadLG.db.files, r.id = 1 ∧
      r.svg_path =
        "uploads/" ++ secure_filename (reqLG.json_filename.getD "uploaded.svg") ∧
      (r.pdf_path = none ∨ r.pdf_path = some ("converted/" ++
        rsplitStem (secure_filename (reqLG.json_filename.getD "uploaded.svg")) ++
        ".pdf"))) ∧
    "converted/merged_123456.pdf" = defaultOutputPath 123456 :=
  ⟨C7_amended.1 [] emptyDB reqLG (some (pdfBlob "P1" 2)) 1 (by decide),
   C7_amended.2 fsTwoVersions dbTwoVersions 123456 [] .success
     "converted/merged_123456.pdf" (by decide)⟩

/-- C8 (amended): in all-available mode Preview's plan does agree with
Plan (both are the available list), and Preview is read-only by
construction; but in specific-lines mode Preview filters the available
entries by membership instead of resolving the request: every previewed
entry's line is merely SOME requested line — unresolved requests do not
fail, repeats are not duplicated, and all stored versions of a requested
line appear (the counterexample shows the resulting divergence from
Plan). -/
theorem C8_amended (fs : FS) (db : DB) (o : Int) :
    merge_plan (get_order_summary fs db o) [] =
      .ok (get_order_summary fs db o).available_pdfs ∧
    ((get_merge_preview fs db o []).merge_details.map (·.line_number) =
      (get_order_summary fs db o).available_pdfs.map (·.line_number)) ∧
    (∀ ls, ls ≠ [] → ∀ d ∈ (get_merge_preview fs db o ls).merge_details,
      d.line_number ∈ ls) := by
  refine ⟨rfl, ?_, ?_⟩
  · simp [get_merge_preview, List.map_map]
  · intro ls hne d hd
    have hlen : 0 < ls.length := by
      cases ls with
      | nil => exact absurd rfl hne
      | cons a as => simp
    simp only [get_merge_preview, hlen, if_true, if_pos] at hd
    obtain ⟨p, hp, rfl⟩ := List.mem_map.mp hd
    have hp2 : p ∈ (get_order_summary fs db o).available_pdfs.filter
        (fun q => ls.contains q.line_number) :=
      (List.perm_insertionSort _ _).mem_iff.mp hp
    have := List.of_mem_filter hp2
    simpa using this

/-- C8 (witness): `C8_amended` applied at the two-version state: the
all-mode preview lines equal the all-mode plan lines, and for the request
`[1, 5]` every previewed entry's line is a requested line. -/
theorem C8_witness :
    ((get_merge_preview fsTwoVersions dbTwoVersions 123456 []).merge_details.map
      (·.line_number) =
      (get_order_summary fsTwoVersions dbTwoVersions 123456).available_pdfs.map
        (·.line_number)) ∧
    (⟨1, "a.svg", 2⟩ : PreviewDetail).line_number ∈ [(1 : Int), 5] :=
  ⟨(C8_amended fsTwoVersions dbTwoVersions 123456).2.1,
   (C8_amended fsTwoVersions dbTwoVersions 123456).2.2 [1, 5] (by decide)
     ⟨1, "a.svg", 2⟩ (by decide)⟩

/-- C9 (confirmed): a multipart (non-JSON) upload request never touches the
file system or the database and never creates a record — and when it passes
the file and identifier validations it answers 500, because the handler
reads `drawing_type`, which only the JSON branch assigns
(`UnboundLocalError`, caught as a server error), before saving the file or
inserting a record.  Only JSON uploads can ever create artifact records. -/
theorem C9_multipart_upload_500 (fs : FS) (db : DB) (req : UploadRequest)
    (cr : Option Blob) (h : req.is_json = false) :
    (upload_file fs db req cr).db = db ∧
    (upload_file fs db req cr).fs = fs ∧
    (upload_file fs db req cr).file_id = none ∧
    (multipartPassesValidation req →
      (upload_file fs db req cr).status = 500) := by
  obtain ⟨hdb, hfs, hfid, hseq, h500⟩ :=
    upload_common_none_drawing fs db req.form_order req.form_line req.file_name
      (.formFile (strBlob "uploaded-bytes")) cr
  simp only [upload_file, h, Bool.false_eq_true, if_false]
  split
  · rename_i hhf
    refine ⟨rfl, rfl, rfl, fun hv => ?_⟩
    rw [hv.1] at hhf
    cases hhf
  split
  · rename_i hfn
    refine ⟨rfl, rfl, rfl, fun hv => ?_⟩
    exact absurd (by simpa using hfn) hv.2.1
  split
  · rename_i hal
    refine ⟨rfl, rfl, rfl, fun hv => ?_⟩
    rw [hv.2.2.1] at hal
    cases hal
  · refine ⟨hdb, hfs, hfid, fun hv => ?_⟩
    obtain ⟨_, _, _, hto, htl, h6, h3⟩ := hv
    cases ho : pyToInt? (req.form_order.getD "") with
    | none => rw [ho] at h6; exact (h6 : False).elim
    | some o =>
      cases hl : pyToInt? (req.form_line.getD "") with
      | none => rw [hl] at h3; exact (h3 : False).elim
      | some l =>
        rw [ho] at h6
        rw [hl] at h3
        obtain ⟨h61, h62⟩ := h6
        obtain ⟨h31, h32⟩ := h3
        exact h500 o l (by simp [hto, htl]) ho hl h61 h62 h31 h32

/-- C9 (witness): `C9_multipart_upload_500` at a concrete valid multipart
request: state unchanged, no record, status 500. -/
theorem C9_witness :
    (upload_file fsTwoVersions dbTwoVersions reqMultipart none).db =
      dbTwoVersions ∧
    (upload_file fsTwoVersions dbTwoVersions reqMultipart none).file_id = none ∧
    (upload_file fsTwoVersions dbTwoVersions reqMultipart none).status = 500 := by
  obtain ⟨hdb, _, hfid, hstat⟩ :=
    C9_multipart_upload_500 fsTwoVersions dbTwoVersions reqMultipart none
      (by decide)
  exact ⟨hdb, hfid, hstat (by decide)⟩

end Cairo
